import Mathlib

/-!
Shallow embedding of the journaling app's screen logic (mood screen, food
screen, shared supabase client module) and proofs about the spec's claims.

Conventions of the embedding:
* JS strings are Lean `String`s; `null`/`undefined` become `Option`.
* JS numbers that the code treats as integers (`parseInt`, `Math.round`
  results) are `Int`; fractional API payload numbers are `Rat`.
* Backend calls are mediated by explicit response oracles passed as
  function arguments; each operation returns its final component state
  together with the ordered list of database calls it issued.
-/

/-- JS truthiness of a `string | null | undefined` value: `null`, `undefined`
and the empty string are falsy. -/
def jsStrTruthy : Option String → Bool
  | none => false
  | some s => s ≠ ""

/-- JS `n || null` on a number: `0` (falsy) collapses to `null`. -/
def jsNumOrNull (n : Int) : Option Int :=
  if n = 0 then none else some n

/-- JS `s || null` on a string: the empty string collapses to `null`. -/
def jsStrOrNull (s : String) : Option String :=
  if s = "" then none else some s

/-- `String.trim` of the source, modelled on the character list. -/
def jsTrim (s : String) : String :=
  ⟨((s.data.dropWhile Char.isWhitespace).reverse.dropWhile Char.isWhitespace).reverse⟩

/-- Longest leading run of decimal digits, `none` when there is none
(that is the `NaN` case of `parseInt`). -/
def leadingNat (cs : List Char) : Option Nat :=
  let ds := cs.takeWhile Char.isDigit
  if ds = [] then none
  else some (ds.foldl (fun n c => n * 10 + (c.toNat - 48)) 0)

/-- JS `parseInt(s, 10)`: skip leading whitespace, optional sign, longest
digit prefix; `none` models `NaN`. -/
def jsParseInt (s : String) : Option Int :=
  match s.data.dropWhile Char.isWhitespace with
  | '-' :: rest => (leadingNat rest).map (fun n => -(n : Int))
  | '+' :: rest => (leadingNat rest).map (fun n => (n : Int))
  | rest => (leadingNat rest).map (fun n => (n : Int))

/-- JS `parseInt(s, 10) || d`: `NaN` and the falsy value `0` both fall back
to the default `d`. -/
def parseIntOr (s : String) (d : Int) : Int :=
  match jsParseInt s with
  | none => d
  | some v => if v = 0 then d else v

/-- The clamped 1..5 value `Math.min(5, Math.max(1, parseInt(s, 10) || 3))`
used for both the mood and the rating field. -/
def moodNumber (s : String) : Int :=
  min 5 (max 1 (parseIntOr s 3))

/-- JS `Math.round` on an exact rational: round half toward positive
infinity. -/
def jsRound (q : Rat) : Int := ⌊q + 1/2⌋

/-! ## Weather API (mood screen) -/

/-- The parts of the OpenWeatherMap JSON body the code reads:
`data.weather` (as the list of the `main` fields) and `data.main?.temp`. -/
structure WeatherData where
  weather : Option (List String)
  mainTemp : Option Rat
  deriving Repr, DecidableEq

/-- Outcome of the single weather `fetch`: an HTTP response with status ok,
a non-ok status, or a thrown exception (network/JSON failure). -/
inductive HttpResp where
  | ok (d : WeatherData)
  | notOk (status : Nat)
  | raise
  deriving Repr, DecidableEq

/-- `fetchWeather` of the current mood screen: returns the weather/temperature
pair together with the number of HTTP requests issued. Missing (or empty)
API key returns nulls without a request; a non-ok status throws into the
`catch`; a non-empty `data.weather` array yields
`(data.weather[0].main, data.main?.temp ?? null)`. -/
def fetchWeatherV1 (apiKey : Option String) (http : HttpResp) :
    (Option String × Option Rat) × Nat :=
  if jsStrTruthy apiKey then
    match http with
    | .ok d =>
        match d.weather with
        | some (w :: _) => ((some w, d.mainTemp), 1)
        | _ => ((none, none), 1)
    | .notOk _ => ((none, none), 1)
    | .raise => ((none, none), 1)
  else ((none, none), 0)

/-- Outcome of the legacy weather `fetch` (no `resp.ok` check in that code):
either a parsed JSON body, or a thrown exception. -/
inductive HttpRespV2 where
  | body (d : WeatherData)
  | raise
  deriving Repr, DecidableEq

/-- `fetchWeather` of the legacy mood screen: hard-coded API key, no status
check, returns only the weather string (or null). -/
def fetchWeatherV2 (http : HttpRespV2) : Option String × Nat :=
  match http with
  | .body d =>
      match d.weather with
      | some (w :: _) => (some w, 1)
      | _ => (none, 1)
  | .raise => (none, 1)

/-! ## Nutrition API (food screen) -/

/-- One entry of `food.foodNutrients`. -/
structure USDANutrient where
  nutrientId : Nat
  value : Option Rat
  deriving Repr, DecidableEq

/-- One entry of `data.foods`. -/
structure USDAFood where
  description : Option String
  foodNutrients : Option (List USDANutrient)
  deriving Repr, DecidableEq

/-- The part of the USDA search response body the code reads. -/
structure USDAResp where
  foods : Option (List USDAFood)
  deriving Repr, DecidableEq

/-- Outcome of the nutrition search `fetch`. -/
inductive FoodHttp where
  | ok (r : USDAResp)
  | notOk (status : Nat)
  | raise
  deriving Repr, DecidableEq

/-- The nutrition record built by the food screen search. -/
structure NutritionInfo where
  name : String
  calories : Int
  protein : Int
  carbs : Int
  fat : Int
  deriving Repr, DecidableEq

/-- `nutrients.find(n => n.nutrientId === id)?.value || 0`. -/
def nutrientValue (ns : List USDANutrient) (id : Nat) : Rat :=
  match ns.find? (fun n => n.nutrientId = id) with
  | some n => n.value.getD 0
  | none => 0

/-- The per-food mapping of `searchFoodAPI`: description (or the
`Unknown Food` fallback) plus the rounded nutrient values 1008/1003/1005/1004,
each defaulting to 0 when absent. -/
def mapUSDAFood (f : USDAFood) : NutritionInfo :=
  let ns := f.foodNutrients.getD []
  { name := match f.description with
      | some d => if d = "" then "Unknown Food" else d
      | none => "Unknown Food"
    calories := jsRound (nutrientValue ns 1008)
    protein := jsRound (nutrientValue ns 1003)
    carbs := jsRound (nutrientValue ns 1005)
    fat := jsRound (nutrientValue ns 1004) }

/-- `searchFoodAPI` of the food screen: result list plus number of HTTP
requests. Missing key: no request, empty list. Non-ok status or exception:
empty list. Otherwise `data.foods?.map(...) || []`. -/
def searchFoodAPI (apiKey : Option String) (http : FoodHttp) :
    List NutritionInfo × Nat :=
  if jsStrTruthy apiKey then
    match http with
    | .ok r => ((r.foods.getD []).map mapUSDAFood, 1)
    | .notOk _ => ([], 1)
    | .raise => ([], 1)
  else ([], 0)

/-! ## Database call model -/

/-- Result of a supabase query/insert: the `{ data, error }` pair collapses
to success with data, or an error with its message string. -/
inductive DbResult (α : Type) where
  | ok (data : α)
  | err (msg : String)
  deriving Repr

/-- The shape of a select query the screens issue: table name, optional
`eq('user_id', …)` filter, order column with direction, row limit. -/
structure FetchRequest where
  table : String
  filterUserId : Option String
  orderBy : String
  ascending : Bool
  rowLimit : Nat
  deriving Repr, DecidableEq

/-- A backend call issued by a screen operation, in program order:
an insert of a row payload or a select query. -/
inductive DbCall (ρ : Type) where
  | insert (row : ρ)
  | select (q : FetchRequest)
  deriving Repr, DecidableEq

/-- Whether a backend call is an insert. -/
def DbCall.isIns {ρ : Type} : DbCall ρ → Bool
  | .insert _ => true
  | .select _ => false

/-! ## Food screen -/

/-- The `FoodEntry` row type of the food screen's select. -/
structure FoodEntry where
  id : String
  food_name : String
  calories : Option Int
  protein : Option Int
  carbs : Option Int
  fat : Option Int
  fiber : Option Int
  meal_type : String
  rating : Option Int
  notes : Option String
  created_at : Option String
  user_id : String
  deriving Repr, DecidableEq

/-- The meal type union of the food screen. -/
inductive MealType where
  | breakfast | lunch | dinner | snack
  deriving Repr, DecidableEq

/-- The row payload of the food screen's insert call, field for field the
object literal passed to `.insert`. -/
structure FoodRow where
  food_name : String
  calories : Int
  protein : Option Int
  carbs : Option Int
  fat : Option Int
  fiber : Option Int
  meal_type : MealType
  rating : Int
  notes : Option String
  user_id : String
  deriving Repr, DecidableEq

/-- The keys of the food insert object literal. -/
def foodRowKeys : List String :=
  ["food_name", "calories", "protein", "carbs", "fat", "fiber",
   "meal_type", "rating", "notes", "user_id"]

/-- The component state of the food screen that the modelled operations
read or write. -/
structure FoodState where
  foodName : String
  calories : String
  mealType : MealType
  rating : String
  notes : String
  selectedNutrition : Option NutritionInfo
  items : List FoodEntry
  inserting : Bool
  refreshing : Bool
  error : Option String
  deriving Repr, DecidableEq

/-- `selectedNutrition?.f || null`. -/
def selNutr (sel : Option NutritionInfo) (f : NutritionInfo → Int) : Option Int :=
  match sel with
  | some ni => jsNumOrNull (f ni)
  | none => none

/-- The select query issued by the food screen's `fetchItems`. -/
def foodFetchReq (uid : String) : FetchRequest :=
  { table := "food_entries", filterUserId := some uid,
    orderBy := "created_at", ascending := false, rowLimit := 50 }

/-- `fetchItems` of the food screen: bail out when no user id is loaded;
otherwise issue the user-filtered, ordered, limited select; on error set the
error message; set `items` to `data ?? []`. -/
def foodFetchItems (userId : Option String)
    (backend : FetchRequest → DbResult (List FoodEntry)) (s : FoodState) :
    FoodState × List (DbCall FoodRow) :=
  if jsStrTruthy userId then
    let req := foodFetchReq (userId.getD "")
    let s1 := { s with refreshing := true, error := none }
    match backend req with
    | .err m =>
        ({ s1 with error := some m, items := [], refreshing := false },
         [DbCall.select req])
    | .ok d => ({ s1 with items := d, refreshing := false }, [DbCall.select req])
  else (s, [])

/-- The row payload `addFoodEntry` builds for its insert call, field for
field the object literal of the source (the source stores the fat value in
the fiber column). -/
def foodRowOf (userId : Option String) (s : FoodState) : FoodRow :=
  { food_name := jsTrim s.foodName
    calories := parseIntOr s.calories 0
    protein := selNutr s.selectedNutrition NutritionInfo.protein
    carbs := selNutr s.selectedNutrition NutritionInfo.carbs
    fat := selNutr s.selectedNutrition NutritionInfo.fat
    fiber := selNutr s.selectedNutrition NutritionInfo.fat
    meal_type := s.mealType
    rating := moodNumber s.rating
    notes := jsStrOrNull (jsTrim s.notes)
    user_id := userId.getD "" }

/-- The validation and insert phase of `addFoodEntry`, up to (excluding) the
final `await fetchItems()`: returns the state at that point, the calls issued
so far, and whether the run reached the insert (an early validation return
skips the refresh). -/
def addFoodEntryPre (userId : Option String)
    (insertResp : FoodRow → Option String) (s : FoodState) :
    FoodState × List (DbCall FoodRow) × Bool :=
  if jsStrTruthy userId then
    let trimmedName := jsTrim s.foodName
    if trimmedName = "" then (s, [], false)
    else if trimmedName.length > 100 then (s, [], false)
    else if s.notes.length > 500 then (s, [], false)
    else
      let s1 := { s with inserting := true, error := none }
      let caloriesNumber := parseIntOr s.calories 0
      if caloriesNumber < 0 ∨ caloriesNumber > 10000 then
        ({ s1 with inserting := false }, [], false)
      else
        let row := foodRowOf userId s
        match insertResp row with
        | some m => ({ s1 with error := some m }, [DbCall.insert row], true)
        | none =>
            ({ s1 with foodName := "", calories := "", notes := "",
                       selectedNutrition := none },
             [DbCall.insert row], true)
  else ({ s with error := some "User not authenticated" }, [], false)

/-- `addFoodEntry` of the food screen: the validation/insert phase followed,
whenever the insert was reached, by the `fetchItems` refresh and the reset of
the inserting flag. -/
def addFoodEntry (userId : Option String)
    (insertResp : FoodRow → Option String)
    (backend : FetchRequest → DbResult (List FoodEntry)) (s : FoodState) :
    FoodState × List (DbCall FoodRow) :=
  match addFoodEntryPre userId insertResp s with
  | (s1, calls, false) => (s1, calls)
  | (s1, calls, true) =>
      let r := foodFetchItems userId backend s1
      ({ r.1 with inserting := false }, calls ++ r.2)

/-! ## Mood screen (current version, with user attribution) -/

/-- The `Entry` row type of the current mood screen's select. -/
structure MoodEntry where
  id : String
  text : String
  mood : Option Int
  created_at : Option String
  lat : Option Rat
  lng : Option Rat
  weather : Option String
  temperature : Option Rat
  user_id : String
  deriving Repr, DecidableEq

/-- The row payload of the current mood screen's insert call. -/
structure MoodRowV1 where
  text : String
  mood : Int
  lat : Option Rat
  lng : Option Rat
  weather : Option String
  temperature : Option Rat
  user_id : String
  deriving Repr, DecidableEq

/-- The keys of the current mood insert object literal. -/
def moodRowV1Keys : List String :=
  ["text", "mood", "lat", "lng", "weather", "temperature", "user_id"]

/-- The component state of the mood screen that the modelled operations
read or write. -/
structure MoodState where
  text : String
  mood : String
  useLocation : Bool
  items : List MoodEntry
  inserting : Bool
  refreshing : Bool
  error : Option String
  deriving Repr, DecidableEq

/-- The expo-location environment: whether foreground permission is granted,
and the outcome of `getCurrentPositionAsync` (which may throw). -/
structure LocEnv where
  granted : Bool
  position : Except Unit (Rat × Rat)

/-- The select query issued by the current mood screen's `fetchItems`. -/
def moodFetchReq (uid : String) : FetchRequest :=
  { table := "data", filterUserId := some uid,
    orderBy := "created_at", ascending := false, rowLimit := 50 }

/-- `fetchItems` of the current mood screen: bail out when no user id is
loaded; otherwise issue the user-filtered, ordered, limited select; on error
set the error message; set `items` to `data ?? []`. -/
def moodFetchItems (userId : Option String)
    (backend : FetchRequest → DbResult (List MoodEntry)) (s : MoodState) :
    MoodState × List (DbCall MoodRowV1) :=
  if jsStrTruthy userId then
    let req := moodFetchReq (userId.getD "")
    let s1 := { s with refreshing := true, error := none }
    match backend req with
    | .err m =>
        ({ s1 with error := some m, items := [], refreshing := false },
         [DbCall.select req])
    | .ok d => ({ s1 with items := d, refreshing := false }, [DbCall.select req])
  else (s, [])

/-- The location/weather block of the current `addItem`: inside a
`try`/`catch`, so a throwing position lookup leaves all four values null. -/
def moodLocation (useLocation : Bool) (loc : LocEnv)
    (weatherKey : Option String) (wh : HttpResp) :
    Option Rat × Option Rat × Option String × Option Rat :=
  if useLocation ∧ loc.granted then
    match loc.position with
    | .ok (la, ln) =>
        let w := (fetchWeatherV1 weatherKey wh).1
        (some la, some ln, w.1, w.2)
    | .error _ => (none, none, none, none)
  else (none, none, none, none)

/-- The row payload the current `addItem` builds for its insert call. -/
def moodRowOf (userId : Option String) (loc : LocEnv)
    (weatherKey : Option String) (wh : HttpResp) (s : MoodState) : MoodRowV1 :=
  let l := moodLocation s.useLocation loc weatherKey wh
  { text := jsTrim s.text
    mood := moodNumber s.mood
    lat := l.1
    lng := l.2.1
    weather := l.2.2.1
    temperature := l.2.2.2
    user_id := userId.getD "" }

/-- The validation and insert phase of the current `addItem`, up to
(excluding) the final `await fetchItems()`. -/
def addItemV1Pre (userId : Option String) (loc : LocEnv)
    (weatherKey : Option String) (wh : HttpResp)
    (insertResp : MoodRowV1 → Option String) (s : MoodState) :
    MoodState × List (DbCall MoodRowV1) × Bool :=
  if jsStrTruthy userId then
    let trimmed := jsTrim s.text
    if trimmed = "" then (s, [], false)
    else
      let s1 := { s with inserting := true, error := none }
      let row := moodRowOf userId loc weatherKey wh s
      match insertResp row with
      | some m => ({ s1 with error := some m }, [DbCall.insert row], true)
      | none => (s1, [DbCall.insert row], true)
  else ({ s with error := some "User not authenticated" }, [], false)

/-- `addItem` of the current mood screen: the validation/insert phase
followed, whenever the insert was reached, by `setText('')`, the
`fetchItems` refresh and the reset of the inserting flag. -/
def addItemV1 (userId : Option String) (loc : LocEnv)
    (weatherKey : Option String) (wh : HttpResp)
    (insertResp : MoodRowV1 → Option String)
    (backend : FetchRequest → DbResult (List MoodEntry)) (s : MoodState) :
    MoodState × List (DbCall MoodRowV1) :=
  match addItemV1Pre userId loc weatherKey wh insertResp s with
  | (s1, calls, false) => (s1, calls)
  | (s1, calls, true) =>
      let r := moodFetchItems userId backend { s1 with text := "" }
      ({ r.1 with inserting := false }, calls ++ r.2)

/-! ## Mood screen (legacy version, no user attribution) -/

/-- The row payload of the legacy mood screen's insert call: no
`temperature` and, notably, no `user_id`. -/
structure MoodRowV2 where
  text : String
  mood : Int
  lat : Option Rat
  lng : Option Rat
  weather : Option String
  deriving Repr, DecidableEq

/-- The keys of the legacy mood insert object literal. -/
def moodRowV2Keys : List String :=
  ["text", "mood", "lat", "lng", "weather"]

/-- The select query issued by the legacy mood screen's `fetchItems`:
no user filter. -/
def moodFetchReqV2 : FetchRequest :=
  { table := "data", filterUserId := none,
    orderBy := "created_at", ascending := false, rowLimit := 50 }

/-- The location/weather block of the legacy `addItem`: no `try`/`catch`
around the position lookup, so a throwing lookup rejects the whole call
(modelled as `Except.error`). -/
def moodLocationV2 (useLocation : Bool) (loc : LocEnv) (wh : HttpRespV2) :
    Except Unit (Option Rat × Option Rat × Option String) :=
  if useLocation ∧ loc.granted then
    match loc.position with
    | .ok (la, ln) => .ok (some la, some ln, (fetchWeatherV2 wh).1)
    | .error _ => .error ()
  else .ok (none, none, none)

/-- `addItem` of the legacy mood screen. The location block has no
`try`/`catch`, so a throwing position lookup rejects the whole call
(modelled as `Except.error`). The insert payload carries no user id. -/
def addItemV2 (loc : LocEnv) (wh : HttpRespV2)
    (insertResp : MoodRowV2 → Option String)
    (backend : FetchRequest → DbResult (List MoodEntry)) (s : MoodState) :
    Except Unit (MoodState × List (DbCall MoodRowV2)) :=
  let trimmed := jsTrim s.text
  if trimmed = "" then .ok (s, [])
  else
    let s1 := { s with inserting := true, error := none }
    (moodLocationV2 s.useLocation loc wh).bind
    fun l =>
      let row : MoodRowV2 :=
        { text := trimmed, mood := moodNumber s.mood,
          lat := l.1, lng := l.2.1, weather := l.2.2 }
      let s2 := match insertResp row with
        | some m => { s1 with error := some m }
        | none => s1
      let s3 := { s2 with text := "" }
      let s4 := { s3 with refreshing := true, error := none }
      match backend moodFetchReqV2 with
      | .err m =>
          .ok ({ s4 with error := some m, items := [], refreshing := false,
                         inserting := false },
               [DbCall.insert row, DbCall.select moodFetchReqV2])
      | .ok d =>
          .ok ({ s4 with items := d, refreshing := false, inserting := false },
               [DbCall.insert row, DbCall.select moodFetchReqV2])

/-! ## Shared supabase client module -/

/-- Construction of the shared supabase client from the two environment
variables: a missing (or empty) URL or key throws the corresponding
`Missing …` error before any client is created. -/
def createSupabaseClient (url anonKey : Option String) :
    Except String (String × String) :=
  if ¬ jsStrTruthy url then .error "Missing EXPO_PUBLIC_SUPABASE_URL"
  else if ¬ jsStrTruthy anonKey then .error "Missing EXPO_PUBLIC_SUPABASE_KEY"
  else .ok (url.getD "", anonKey.getD "")

/-! ## Concrete fixtures used by witnesses and counterexamples -/

/-- A concrete food screen state with a valid form. -/
def foodState0 : FoodState :=
  { foodName := "apple", calories := "95", mealType := .breakfast,
    rating := "4", notes := "", selectedNutrition := none,
    items := [], inserting := false, refreshing := false, error := none }

/-- A concrete mood screen state with a valid form. -/
def moodState0 : MoodState :=
  { text := "feeling fine", mood := "4", useLocation := false,
    items := [], inserting := false, refreshing := false, error := none }

/-- A location environment with permission denied. -/
def locNone : LocEnv := { granted := false, position := .error () }

/-- An insert oracle that always succeeds. -/
def insFoodOk : FoodRow → Option String := fun _ => none

/-- An insert oracle that always fails with a fixed message. -/
def insFoodFail : FoodRow → Option String := fun _ => some "insert failed"

/-- A select oracle that always returns the empty list. -/
def beFoodOk : FetchRequest → DbResult (List FoodEntry) := fun _ => .ok []

/-- A select oracle that always fails with a fixed message. -/
def beFoodErr : FetchRequest → DbResult (List FoodEntry) :=
  fun _ => .err "query failed"

/-- A mood insert oracle that always succeeds. -/
def insMoodOk : MoodRowV1 → Option String := fun _ => none

/-- A mood insert oracle that always fails with a fixed message. -/
def insMoodFail : MoodRowV1 → Option String := fun _ => some "insert failed"

/-- A legacy mood insert oracle that always succeeds. -/
def insMoodOkV2 : MoodRowV2 → Option String := fun _ => none

/-- A mood select oracle that always returns the empty list. -/
def beMoodOk : FetchRequest → DbResult (List MoodEntry) := fun _ => .ok []

/-- A mood select oracle that always fails with a fixed message. -/
def beMoodErr : FetchRequest → DbResult (List MoodEntry) :=
  fun _ => .err "query failed"

/-- A concrete nutrition selection whose fat value is 0. -/
def nutritionZeroFat : NutritionInfo :=
  { name := "Egg White", calories := 52, protein := 11, carbs := 1, fat := 0 }

/-- A concrete nutrition selection whose fat value is non-zero. -/
def nutritionButter : NutritionInfo :=
  { name := "Butter", calories := 717, protein := 1, carbs := 0, fat := 81 }

/-- A concrete one-food USDA search response. -/
def usdaAppleResp : USDAResp :=
  { foods := some [{ description := some "Apple, raw", foodNutrients := some [{ nutrientId := 1008, value := some (95/2) }, { nutrientId := 1003, value := none }] }] }

/-! ## Helper lemmas: food screen -/

/-- The food add phase reaches the insert exactly when the validation
conditions hold. -/
lemma addFoodEntryPre_reach_iff (u : Option String)
    (ins : FoodRow → Option String) (s : FoodState) :
    (addFoodEntryPre u ins s).2.2 = true ↔
      (jsStrTruthy u = true ∧ jsTrim s.foodName ≠ "" ∧
       (jsTrim s.foodName).length ≤ 100 ∧ s.notes.length ≤ 500 ∧
       0 ≤ parseIntOr s.calories 0 ∧ parseIntOr s.calories 0 ≤ 10000) := by
  unfold addFoodEntryPre
  by_cases hu : jsStrTruthy u
  · by_cases hn : jsTrim s.foodName = ""
    · simp [hu, hn]
    · by_cases hl : (jsTrim s.foodName).length > 100
      · simp [hu, hn, hl]
      · by_cases hno : s.notes.length > 500
        · simp [hu, hn, hl, hno]
        · by_cases hc : parseIntOr s.calories 0 < 0 ∨ parseIntOr s.calories 0 > 10000
          · simp [hu, hn, hl, hno, hc]
            all_goals omega
          · cases hins : ins (foodRowOf u s) <;>
              simp [hu, hn, hl, hno, hc, hins] <;> omega
  · simp [hu]

/-- The food add phase issues exactly the one insert of the built row when
it reaches the insert, and no call otherwise. -/
lemma addFoodEntryPre_calls (u : Option String)
    (ins : FoodRow → Option String) (s : FoodState) :
    (addFoodEntryPre u ins s).2.1 =
      (if (addFoodEntryPre u ins s).2.2 then [DbCall.insert (foodRowOf u s)]
       else []) := by
  unfold addFoodEntryPre
  by_cases hu : jsStrTruthy u
  · by_cases hn : jsTrim s.foodName = ""
    · simp [hu, hn]
    · by_cases hl : (jsTrim s.foodName).length > 100
      · simp [hu, hn, hl]
      · by_cases hno : s.notes.length > 500
        · simp [hu, hn, hl, hno]
        · by_cases hc : parseIntOr s.calories 0 < 0 ∨ parseIntOr s.calories 0 > 10000
          · simp [hu, hn, hl, hno, hc]
          · cases hins : ins (foodRowOf u s) <;>
              simp [hu, hn, hl, hno, hc, hins]
  · simp [hu]

/-- On a failed insert the food add phase sets the error state to the
error's message. -/
lemma addFoodEntryPre_err (u : Option String) (ins : FoodRow → Option String)
    (s : FoodState) (m : String)
    (hreach : (addFoodEntryPre u ins s).2.2 = true)
    (hm : ins (foodRowOf u s) = some m) :
    ((addFoodEntryPre u ins s).1).error = some m := by
  have h := (addFoodEntryPre_reach_iff u ins s).mp hreach
  obtain ⟨hu, hn, hl, hno, hc0, hc1⟩ := h
  unfold addFoodEntryPre
  have hc : ¬ (parseIntOr s.calories 0 < 0 ∨ parseIntOr s.calories 0 > 10000) := by
    omega
  simp [hu, hn, hc, hm, Nat.not_lt.mpr hl, Nat.not_lt.mpr hno]

/-- `fetchItems` of the food screen without a loaded user id: no call,
state unchanged. -/
lemma foodFetchItems_no_user (u : Option String)
    (be : FetchRequest → DbResult (List FoodEntry)) (s : FoodState)
    (h : jsStrTruthy u = false) : foodFetchItems u be s = (s, []) := by
  unfold foodFetchItems
  simp [h]

/-- `fetchItems` of the food screen with a loaded user id issues exactly the
one user-filtered select. -/
lemma foodFetchItems_calls (u : Option String)
    (be : FetchRequest → DbResult (List FoodEntry)) (s : FoodState)
    (h : jsStrTruthy u = true) :
    (foodFetchItems u be s).2 = [DbCall.select (foodFetchReq (u.getD ""))] := by
  unfold foodFetchItems
  cases hb : be (foodFetchReq (u.getD "")) <;> simp [h, hb]

/-- A failed select on the food screen sets the error message and clears the
items list. -/
lemma foodFetchItems_err (u : Option String)
    (be : FetchRequest → DbResult (List FoodEntry)) (s : FoodState)
    (m : String) (h : jsStrTruthy u = true)
    (he : be (foodFetchReq (u.getD "")) = .err m) :
    ((foodFetchItems u be s).1).error = some m ∧
    ((foodFetchItems u be s).1).items = [] := by
  unfold foodFetchItems
  simp [h, he]

/-- A successful select on the food screen stores the returned rows and
leaves no error. -/
lemma foodFetchItems_ok (u : Option String)
    (be : FetchRequest → DbResult (List FoodEntry)) (s : FoodState)
    (d : List FoodEntry) (h : jsStrTruthy u = true)
    (hd : be (foodFetchReq (u.getD "")) = .ok d) :
    ((foodFetchItems u be s).1).items = d ∧
    ((foodFetchItems u be s).1).error = none := by
  unfold foodFetchItems
  simp [h, hd]

/-- When the insert is reached, `addFoodEntry` issues exactly the insert
followed by the refresh select. -/
lemma addFoodEntry_calls_of_reach (u : Option String)
    (ins : FoodRow → Option String)
    (be : FetchRequest → DbResult (List FoodEntry)) (s : FoodState)
    (h : (addFoodEntryPre u ins s).2.2 = true) :
    (addFoodEntry u ins be s).2 =
      [DbCall.insert (foodRowOf u s),
       DbCall.select (foodFetchReq (u.getD ""))] := by
  have hu : jsStrTruthy u = true :=
    ((addFoodEntryPre_reach_iff u ins s).mp h).1
  have hc := addFoodEntryPre_calls u ins s
  rw [h] at hc
  unfold addFoodEntry
  rcases hp : addFoodEntryPre u ins s with ⟨s1, calls, reach⟩
  rw [hp] at h hc
  simp at h hc
  subst h
  simp [hc, foodFetchItems_calls u be s1 hu]

/-- When validation fails, `addFoodEntry` issues no backend call. -/
lemma addFoodEntry_calls_of_noreach (u : Option String)
    (ins : FoodRow → Option String)
    (be : FetchRequest → DbResult (List FoodEntry)) (s : FoodState)
    (h : (addFoodEntryPre u ins s).2.2 = false) :
    (addFoodEntry u ins be s).2 = [] := by
  have hc := addFoodEntryPre_calls u ins s
  rw [h] at hc
  unfold addFoodEntry
  rcases hp : addFoodEntryPre u ins s with ⟨s1, calls, reach⟩
  rw [hp] at h hc
  simp at h hc
  subst h
  simp [hc]

/-! ## Helper lemmas: mood screen -/

/-- The mood add phase reaches the insert exactly when a user id is loaded
and the trimmed text is non-empty. -/
lemma addItemV1Pre_reach_iff (u : Option String) (loc : LocEnv)
    (wk : Option String) (wh : HttpResp) (ins : MoodRowV1 → Option String)
    (s : MoodState) :
    (addItemV1Pre u loc wk wh ins s).2.2 = true ↔
      (jsStrTruthy u = true ∧ jsTrim s.text ≠ "") := by
  unfold addItemV1Pre
  by_cases hu : jsStrTruthy u
  · by_cases hn : jsTrim s.text = ""
    · simp [hu, hn]
    · cases hins : ins (moodRowOf u loc wk wh s) <;> simp [hu, hn, hins]
  · simp [hu]

/-- The mood add phase issues exactly the one insert of the built row when
it reaches the insert, and no call otherwise. -/
lemma addItemV1Pre_calls (u : Option String) (loc : LocEnv)
    (wk : Option String) (wh : HttpResp) (ins : MoodRowV1 → Option String)
    (s : MoodState) :
    (addItemV1Pre u loc wk wh ins s).2.1 =
      (if (addItemV1Pre u loc wk wh ins s).2.2 then
        [DbCall.insert (moodRowOf u loc wk wh s)]
       else []) := by
  unfold addItemV1Pre
  by_cases hu : jsStrTruthy u
  · by_cases hn : jsTrim s.text = ""
    · simp [hu, hn]
    · cases hins : ins (moodRowOf u loc wk wh s) <;> simp [hu, hn, hins]
  · simp [hu]

/-- On a failed insert the mood add phase sets the error state to the
error's message. -/
lemma addItemV1Pre_err (u : Option String) (loc : LocEnv)
    (wk : Option String) (wh : HttpResp) (ins : MoodRowV1 → Option String)
    (s : MoodState) (m : String)
    (hreach : (addItemV1Pre u loc wk wh ins s).2.2 = true)
    (hm : ins (moodRowOf u loc wk wh s) = some m) :
    ((addItemV1Pre u loc wk wh ins s).1).error = some m := by
  obtain ⟨hu, hn⟩ := (addItemV1Pre_reach_iff u loc wk wh ins s).mp hreach
  unfold addItemV1Pre
  simp [hu, hn, hm]

/-- `fetchItems` of the current mood screen without a loaded user id: no
call, state unchanged. -/
lemma moodFetchItems_no_user (u : Option String)
    (be : FetchRequest → DbResult (List MoodEntry)) (s : MoodState)
    (h : jsStrTruthy u = false) : moodFetchItems u be s = (s, []) := by
  unfold moodFetchItems
  simp [h]

/-- `fetchItems` of the current mood screen with a loaded user id issues
exactly the one user-filtered select. -/
lemma moodFetchItems_calls (u : Option String)
    (be : FetchRequest → DbResult (List MoodEntry)) (s : MoodState)
    (h : jsStrTruthy u = true) :
    (moodFetchItems u be s).2 = [DbCall.select (moodFetchReq (u.getD ""))] := by
  unfold moodFetchItems
  cases hb : be (moodFetchReq (u.getD "")) <;> simp [h, hb]

/-- A failed select on the current mood screen sets the error message and
clears the items list. -/
lemma moodFetchItems_err (u : Option String)
    (be : FetchRequest → DbResult (List MoodEntry)) (s : MoodState)
    (m : String) (h : jsStrTruthy u = true)
    (he : be (moodFetchReq (u.getD "")) = .err m) :
    ((moodFetchItems u be s).1).error = some m ∧
    ((moodFetchItems u be s).1).items = [] := by
  unfold moodFetchItems
  simp [h, he]

/-- When the insert is reached, the current `addItem` issues exactly the
insert followed by the refresh select. -/
lemma addItemV1_calls_of_reach (u : Option String) (loc : LocEnv)
    (wk : Option String) (wh : HttpResp) (ins : MoodRowV1 → Option String)
    (be : FetchRequest → DbResult (List MoodEntry)) (s : MoodState)
    (h : (addItemV1Pre u loc wk wh ins s).2.2 = true) :
    (addItemV1 u loc wk wh ins be s).2 =
      [DbCall.insert (moodRowOf u loc wk wh s),
       DbCall.select (moodFetchReq (u.getD ""))] := by
  have hu : jsStrTruthy u = true :=
    ((addItemV1Pre_reach_iff u loc wk wh ins s).mp h).1
  have hc := addItemV1Pre_calls u loc wk wh ins s
  rw [h] at hc
  unfold addItemV1
  rcases hp : addItemV1Pre u loc wk wh ins s with ⟨s1, calls, reach⟩
  rw [hp] at h hc
  simp at h hc
  subst h
  simp [hc, moodFetchItems_calls u be _ hu]

/-- When validation fails, the current `addItem` issues no backend call. -/
lemma addItemV1_calls_of_noreach (u : Option String) (loc : LocEnv)
    (wk : Option String) (wh : HttpResp) (ins : MoodRowV1 → Option String)
    (be : FetchRequest → DbResult (List MoodEntry)) (s : MoodState)
    (h : (addItemV1Pre u loc wk wh ins s).2.2 = false) :
    (addItemV1 u loc wk wh ins be s).2 = [] := by
  have hc := addItemV1Pre_calls u loc wk wh ins s
  rw [h] at hc
  unfold addItemV1
  rcases hp : addItemV1Pre u loc wk wh ins s with ⟨s1, calls, reach⟩
  rw [hp] at h hc
  simp at h hc
  subst h
  simp [hc]

/-! ## Helper lemmas: legacy mood screen -/

/-- Every completed run of the legacy `addItem` issues either no backend
call (empty trimmed text) or exactly the insert of the row built from the
validated form values followed by the unfiltered refresh select. -/
lemma addItemV2_calls (loc : LocEnv) (wh : HttpRespV2)
    (ins : MoodRowV2 → Option String)
    (be : FetchRequest → DbResult (List MoodEntry)) (s : MoodState)
    (s2 : MoodState) (calls : List (DbCall MoodRowV2))
    (hrun : addItemV2 loc wh ins be s = Except.ok (s2, calls)) :
    calls = [] ∨
    (∃ l, moodLocationV2 s.useLocation loc wh = Except.ok l ∧
      jsTrim s.text ≠ "" ∧
      calls =
        [DbCall.insert
          { text := jsTrim s.text, mood := moodNumber s.mood,
            lat := l.1, lng := l.2.1, weather := l.2.2 },
         DbCall.select moodFetchReqV2]) := by
  unfold addItemV2 at hrun
  by_cases hn : jsTrim s.text = ""
  · left
    simp [hn] at hrun
    exact hrun.2
  · right
    rcases hloc : moodLocationV2 s.useLocation loc wh with e | l
    · rw [hloc] at hrun
      simp [hn, Except.bind] at hrun
    · refine ⟨l, rfl, hn, ?_⟩
      rw [hloc] at hrun
      cases hb : be moodFetchReqV2 <;>
        simp [hn, hb, Except.bind] at hrun <;>
        exact hrun.2.symm

/-! ## Claim theorems -/

/-- C7: constructing the shared supabase client fails with the message
`Missing EXPO_PUBLIC_SUPABASE_URL` when the URL environment variable is
absent, fails with `Missing EXPO_PUBLIC_SUPABASE_KEY` when the key is absent
(the URL guard runs first), and a client value exists exactly when both
configuration values are present, so no backend call can be made without
them. -/
theorem c7_client_config (url anonKey : Option String) :
    (jsStrTruthy url = false →
      createSupabaseClient url anonKey =
        .error "Missing EXPO_PUBLIC_SUPABASE_URL") ∧
    (jsStrTruthy url = true → jsStrTruthy anonKey = false →
      createSupabaseClient url anonKey =
        .error "Missing EXPO_PUBLIC_SUPABASE_KEY") ∧
    ((∃ c, createSupabaseClient url anonKey = .ok c) ↔
      (jsStrTruthy url = true ∧ jsStrTruthy anonKey = true)) := by
  unfold createSupabaseClient
  by_cases h1 : jsStrTruthy url <;> by_cases h2 : jsStrTruthy anonKey <;>
    simp [h1, h2]

/-- C7 witness: concrete missing-URL and missing-KEY environments produce
the two error messages, and a complete environment produces a client. -/
theorem c7_client_config_w :
    createSupabaseClient none (some "k") =
      .error "Missing EXPO_PUBLIC_SUPABASE_URL" ∧
    createSupabaseClient (some "u") none =
      .error "Missing EXPO_PUBLIC_SUPABASE_KEY" ∧
    (∃ c, createSupabaseClient (some "u") (some "k") = .ok c) :=
  ⟨(c7_client_config none (some "k")).1 (by decide),
   (c7_client_config (some "u") none).2.1 (by decide) (by decide),
   (c7_client_config (some "u") (some "k")).2.2.mpr (by decide)⟩

/-- C4: `fetchWeather` of the current mood screen issues at most one HTTP
request; a present key with an ok response carrying a non-empty weather
array yields `(weather[0].main, main?.temp ?? null)`; a missing key (with no
request at all), a non-ok status, a thrown exception, and an absent or empty
weather array all yield `(null, null)`. -/
theorem c4_fetchWeather_spec (k : Option String) (h : HttpResp) :
    (fetchWeatherV1 k h).2 ≤ 1 ∧
    (jsStrTruthy k = false → fetchWeatherV1 k h = ((none, none), 0)) ∧
    (∀ d w ws, jsStrTruthy k = true → h = HttpResp.ok d →
      d.weather = some (w :: ws) →
      (fetchWeatherV1 k h).1 = (some w, d.mainTemp)) ∧
    (∀ st, h = HttpResp.notOk st → (fetchWeatherV1 k h).1 = (none, none)) ∧
    (h = HttpResp.raise → (fetchWeatherV1 k h).1 = (none, none)) ∧
    (∀ d, h = HttpResp.ok d → (d.weather = none ∨ d.weather = some []) →
      (fetchWeatherV1 k h).1 = (none, none)) := by
  unfold fetchWeatherV1
  by_cases hk : jsStrTruthy k
  · cases h with
    | ok d =>
        rcases hw : d.weather with _ | ⟨_ | ⟨w, ws⟩⟩
        · simp [hk, hw]
          rintro d1 w1 ws1 rfl h1
          simp [hw] at h1
        · simp [hk, hw]
          rintro d1 w1 ws1 rfl h1
          simp [hw] at h1
        · simp [hk, hw]
          rintro d1 w1 ws1 rfl h1
          rw [hw] at h1
          simp at h1
          exact ⟨h1.1, rfl⟩
    | notOk st => simp [hk]
    | raise => simp [hk]
  · simp [hk]

/-- C4 witness: concrete runs of `fetchWeather` for the success case, the
missing-key case and the non-ok case. -/
theorem c4_fetchWeather_spec_w :
    (fetchWeatherV1 (some "wk")
        (HttpResp.ok { weather := some ["Rain"], mainTemp := some 21 })).1 =
      (some "Rain", some 21) ∧
    fetchWeatherV1 none HttpResp.raise = ((none, none), 0) ∧
    (fetchWeatherV1 (some "wk") (HttpResp.notOk 500)).1 = (none, none) :=
  ⟨(c4_fetchWeather_spec (some "wk") _).2.2.1
      { weather := some ["Rain"], mainTemp := some 21 } "Rain" []
      (by decide) rfl rfl,
   (c4_fetchWeather_spec none HttpResp.raise).2.1 (by decide),
   (c4_fetchWeather_spec (some "wk") (HttpResp.notOk 500)).2.2.2.1 500 rfl⟩

/-- C10: `fetchItems` of the food screen and of the current mood screen
queries only rows of the current user, ordered by `created_at` descending
and limited to 50; without a loaded user id it issues no query and leaves
the state unchanged; a failed query sets `items` to the empty list. -/
theorem c10_fetchItems_spec (userId : Option String)
    (beF : FetchRequest → DbResult (List FoodEntry))
    (beM : FetchRequest → DbResult (List MoodEntry))
    (sF : FoodState) (sM : MoodState) :
    (jsStrTruthy userId = false →
      foodFetchItems userId beF sF = (sF, []) ∧
      moodFetchItems userId beM sM = (sM, [])) ∧
    (jsStrTruthy userId = true →
      (foodFetchItems userId beF sF).2 =
        [DbCall.select
          { table := "food_entries", filterUserId := some (userId.getD ""),
            orderBy := "created_at", ascending := false, rowLimit := 50 }] ∧
      (moodFetchItems userId beM sM).2 =
        [DbCall.select
          { table := "data", filterUserId := some (userId.getD ""),
            orderBy := "created_at", ascending := false, rowLimit := 50 }]) ∧
    (∀ m, jsStrTruthy userId = true →
      beF (foodFetchReq (userId.getD "")) = .err m →
      ((foodFetchItems userId beF sF).1).items = [] ∧
      ((foodFetchItems userId beF sF).1).error = some m) ∧
    (∀ m, jsStrTruthy userId = true →
      beM (moodFetchReq (userId.getD "")) = .err m →
      ((moodFetchItems userId beM sM).1).items = [] ∧
      ((moodFetchItems userId beM sM).1).error = some m) := by
  refine ⟨fun h => ⟨foodFetchItems_no_user _ _ _ h,
                    moodFetchItems_no_user _ _ _ h⟩,
          fun h => ⟨?_, ?_⟩, fun m h he => ?_, fun m h he => ?_⟩
  · rw [foodFetchItems_calls _ _ _ h]
    rfl
  · rw [moodFetchItems_calls _ _ _ h]
    rfl
  · have := foodFetchItems_err userId beF sF m h he
    exact ⟨this.2, this.1⟩
  · have := moodFetchItems_err userId beM sM m h he
    exact ⟨this.2, this.1⟩

/-- C10 witness: a concrete run with no loaded user changes nothing; with a
user, the issued query is the filtered/ordered/limited one, and a failed
query clears the items list. -/
theorem c10_fetchItems_spec_w :
    foodFetchItems none beFoodErr foodState0 = (foodState0, []) ∧
    (foodFetchItems (some "u1") beFoodOk foodState0).2 =
      [DbCall.select
        { table := "food_entries", filterUserId := some "u1",
          orderBy := "created_at", ascending := false, rowLimit := 50 }] ∧
    ((foodFetchItems (some "u1") beFoodErr
        { foodState0 with items :=
            [{ id := "r1", food_name := "old", calories := none,
               protein := none, carbs := none, fat := none, fiber := none,
               meal_type := "snack", rating := none, notes := none,
               created_at := none, user_id := "u1" }] }).1).items = [] :=
  ⟨((c10_fetchItems_spec none beFoodErr beMoodErr foodState0 moodState0).1
      (by decide)).1,
   ((c10_fetchItems_spec (some "u1") beFoodOk beMoodOk foodState0
      moodState0).2.1 (by decide)).1,
   ((c10_fetchItems_spec (some "u1") beFoodErr beMoodErr
      { foodState0 with items :=
          [{ id := "r1", food_name := "old", calories := none,
             protein := none, carbs := none, fat := none, fiber := none,
             meal_type := "snack", rating := none, notes := none,
             created_at := none, user_id := "u1" }] }
      moodState0).2.2.1 "query failed" (by decide) rfl).1⟩

/-- C2: on every failure of a backend call — the select in `fetchItems` of
either screen, or the insert in the add operation — the handler sets the
screen's error state to exactly the error's message string, and the failing
call is issued exactly once (no retry; for the add operation, the insert
phase state is the state handed to the subsequent refresh). -/
theorem c2_error_propagation (userId : Option String)
    (beF : FetchRequest → DbResult (List FoodEntry))
    (beM : FetchRequest → DbResult (List MoodEntry))
    (insF : FoodRow → Option String) (insM : MoodRowV1 → Option String)
    (loc : LocEnv) (wk : Option String) (wh : HttpResp)
    (sF : FoodState) (sM : MoodState) :
    (∀ m, jsStrTruthy userId = true →
      beF (foodFetchReq (userId.getD "")) = .err m →
      ((foodFetchItems userId beF sF).1).error = some m ∧
      (foodFetchItems userId beF sF).2.length = 1) ∧
    (∀ m, jsStrTruthy userId = true →
      beM (moodFetchReq (userId.getD "")) = .err m →
      ((moodFetchItems userId beM sM).1).error = some m ∧
      (moodFetchItems userId beM sM).2.length = 1) ∧
    (∀ m, (addFoodEntryPre userId insF sF).2.2 = true →
      insF (foodRowOf userId sF) = some m →
      ((addFoodEntryPre userId insF sF).1).error = some m ∧
      (addFoodEntry userId insF beF sF).2.countP
        (fun c => DbCall.isIns c) = 1) ∧
    (∀ m, (addItemV1Pre userId loc wk wh insM sM).2.2 = true →
      insM (moodRowOf userId loc wk wh sM) = some m →
      ((addItemV1Pre userId loc wk wh insM sM).1).error = some m ∧
      (addItemV1 userId loc wk wh insM beM sM).2.countP
        (fun c => DbCall.isIns c) = 1) := by
  refine ⟨fun m h he => ⟨(foodFetchItems_err userId beF sF m h he).1, ?_⟩,
          fun m h he => ⟨(moodFetchItems_err userId beM sM m h he).1, ?_⟩,
          fun m hr hm => ⟨addFoodEntryPre_err userId insF sF m hr hm, ?_⟩,
          fun m hr hm => ⟨addItemV1Pre_err userId loc wk wh insM sM m hr hm,
                          ?_⟩⟩
  · rw [foodFetchItems_calls userId beF sF h]
    rfl
  · rw [moodFetchItems_calls userId beM sM h]
    rfl
  · rw [addFoodEntry_calls_of_reach userId insF beF sF hr]
    rfl
  · rw [addItemV1_calls_of_reach userId loc wk wh insM beM sM hr]
    rfl

/-- C2 witness: a concrete failing select and a concrete failing insert set
the error state to the respective message, with a single call each. -/
theorem c2_error_propagation_w :
    ((foodFetchItems (some "u1") beFoodErr foodState0).1).error =
      some "query failed" ∧
    ((addFoodEntryPre (some "u1") insFoodFail foodState0).1).error =
      some "insert failed" ∧
    ((addItemV1Pre (some "u1") locNone none HttpResp.raise insMoodFail
        moodState0).1).error = some "insert failed" :=
  ⟨((c2_error_propagation (some "u1") beFoodErr beMoodErr insFoodFail
      insMoodFail locNone none HttpResp.raise foodState0 moodState0).1
      "query failed" (by decide) rfl).1,
   ((c2_error_propagation (some "u1") beFoodErr beMoodErr insFoodFail
      insMoodFail locNone none HttpResp.raise foodState0 moodState0).2.2.1
      "insert failed" (by decide) rfl).1,
   ((c2_error_propagation (some "u1") beFoodErr beMoodErr insFoodFail
      insMoodFail locNone none HttpResp.raise foodState0 moodState0).2.2.2
      "insert failed" (by decide) rfl).1⟩

/-- C1: the add operations perform their validation before any insert:
`addFoodEntry` issues its insert exactly when a user id is present, the
trimmed food name is non-empty and at most 100 characters, the notes are at
most 500 characters and the parsed calorie value lies in [0, 10000];
the mood screen's `addItem` issues its insert exactly when a user id is
present and the trimmed text is non-empty. -/
theorem c1_add_validation (userId : Option String)
    (insF : FoodRow → Option String)
    (beF : FetchRequest → DbResult (List FoodEntry)) (sF : FoodState)
    (loc : LocEnv) (wk : Option String) (wh : HttpResp)
    (insM : MoodRowV1 → Option String)
    (beM : FetchRequest → DbResult (List MoodEntry)) (sM : MoodState) :
    ((addFoodEntry userId insF beF sF).2.any DbCall.isIns = true ↔
      (jsStrTruthy userId = true ∧ jsTrim sF.foodName ≠ "" ∧
       (jsTrim sF.foodName).length ≤ 100 ∧ sF.notes.length ≤ 500 ∧
       0 ≤ parseIntOr sF.calories 0 ∧ parseIntOr sF.calories 0 ≤ 10000)) ∧
    ((addItemV1 userId loc wk wh insM beM sM).2.any DbCall.isIns = true ↔
      (jsStrTruthy userId = true ∧ jsTrim sM.text ≠ "")) := by
  constructor
  · by_cases hr : (addFoodEntryPre userId insF sF).2.2 = true
    · constructor
      · intro _
        exact (addFoodEntryPre_reach_iff userId insF sF).mp hr
      · intro _
        rw [addFoodEntry_calls_of_reach userId insF beF sF hr]
        rfl
    · have hr2 : (addFoodEntryPre userId insF sF).2.2 = false := by
        cases hb : (addFoodEntryPre userId insF sF).2.2 <;> simp_all
      constructor
      · intro hany
        rw [addFoodEntry_calls_of_noreach userId insF beF sF hr2] at hany
        simp at hany
      · intro hcond
        exact absurd ((addFoodEntryPre_reach_iff userId insF sF).mpr hcond)
          (by simp [hr2])
  · by_cases hr : (addItemV1Pre userId loc wk wh insM sM).2.2 = true
    · constructor
      · intro _
        exact (addItemV1Pre_reach_iff userId loc wk wh insM sM).mp hr
      · intro _
        rw [addItemV1_calls_of_reach userId loc wk wh insM beM sM hr]
        rfl
    · have hr2 : (addItemV1Pre userId loc wk wh insM sM).2.2 = false := by
        cases hb : (addItemV1Pre userId loc wk wh insM sM).2.2 <;> simp_all
      constructor
      · intro hany
        rw [addItemV1_calls_of_noreach userId loc wk wh insM beM sM hr2]
          at hany
        simp at hany
      · intro hcond
        exact absurd
          ((addItemV1Pre_reach_iff userId loc wk wh insM sM).mpr hcond)
          (by simp [hr2])

/-- C1 witness: a valid concrete form issues the insert; a missing user id,
an over-long food name and an out-of-range calorie value do not. -/
theorem c1_add_validation_w :
    (addFoodEntry (some "u1") insFoodOk beFoodOk foodState0).2.any
      DbCall.isIns = true ∧
    (addItemV1 (some "u1") locNone none HttpResp.raise insMoodOk beMoodOk
      moodState0).2.any DbCall.isIns = true ∧
    (addFoodEntry none insFoodOk beFoodOk foodState0).2.any
      DbCall.isIns = false ∧
    (addFoodEntry (some "u1") insFoodOk beFoodOk
      { foodState0 with calories := "20000" }).2.any DbCall.isIns = false := by
  refine ⟨(c1_add_validation (some "u1") insFoodOk beFoodOk foodState0
      locNone none HttpResp.raise insMoodOk beMoodOk moodState0).1.mpr
      (by decide),
    (c1_add_validation (some "u1") insFoodOk beFoodOk foodState0
      locNone none HttpResp.raise insMoodOk beMoodOk moodState0).2.mpr
      (by decide), ?_, ?_⟩
  · have h := (c1_add_validation none insFoodOk beFoodOk foodState0
      locNone none HttpResp.raise insMoodOk beMoodOk moodState0).1
    cases hb : (addFoodEntry none insFoodOk beFoodOk foodState0).2.any
        DbCall.isIns
    · rfl
    · exact absurd ((h.mp hb).1) (by decide)
  · have h := (c1_add_validation (some "u1") insFoodOk beFoodOk
      { foodState0 with calories := "20000" }
      locNone none HttpResp.raise insMoodOk beMoodOk moodState0).1
    cases hb : (addFoodEntry (some "u1") insFoodOk beFoodOk
        { foodState0 with calories := "20000" }).2.any DbCall.isIns
    · rfl
    · have hc := (h.mp hb).2.2.2.2.2
      revert hc
      decide

/-- C3: every execution of the add operation that reaches the insert issues
exactly the insert followed by the refresh select — `fetchItems` runs after
the insert completes, whatever the insert outcome. -/
theorem c3_insert_then_refresh (userId : Option String)
    (insF : FoodRow → Option String)
    (beF : FetchRequest → DbResult (List FoodEntry)) (sF : FoodState)
    (loc : LocEnv) (wk : Option String) (wh : HttpResp)
    (insM : MoodRowV1 → Option String)
    (beM : FetchRequest → DbResult (List MoodEntry)) (sM : MoodState) :
    ((addFoodEntry userId insF beF sF).2.any DbCall.isIns = true →
      (addFoodEntry userId insF beF sF).2 =
        [DbCall.insert (foodRowOf userId sF),
         DbCall.select (foodFetchReq (userId.getD ""))]) ∧
    ((addItemV1 userId loc wk wh insM beM sM).2.any DbCall.isIns = true →
      (addItemV1 userId loc wk wh insM beM sM).2 =
        [DbCall.insert (moodRowOf userId loc wk wh sM),
         DbCall.select (moodFetchReq (userId.getD ""))]) := by
  constructor
  · intro hany
    by_cases hr : (addFoodEntryPre userId insF sF).2.2 = true
    · exact addFoodEntry_calls_of_reach userId insF beF sF hr
    · have hr2 : (addFoodEntryPre userId insF sF).2.2 = false := by
        cases hb : (addFoodEntryPre userId insF sF).2.2 <;> simp_all
      rw [addFoodEntry_calls_of_noreach userId insF beF sF hr2] at hany
      simp at hany
  · intro hany
    by_cases hr : (addItemV1Pre userId loc wk wh insM sM).2.2 = true
    · exact addItemV1_calls_of_reach userId loc wk wh insM beM sM hr
    · have hr2 : (addItemV1Pre userId loc wk wh insM sM).2.2 = false := by
        cases hb : (addItemV1Pre userId loc wk wh insM sM).2.2 <;> simp_all
      rw [addItemV1_calls_of_noreach userId loc wk wh insM beM sM hr2]
        at hany
      simp at hany

/-- C3 witness: a concrete run with a failing insert still issues the
refresh select right after the insert, on both screens. -/
theorem c3_insert_then_refresh_w :
    (addFoodEntry (some "u1") insFoodFail beFoodOk foodState0).2 =
      [DbCall.insert (foodRowOf (some "u1") foodState0),
       DbCall.select (foodFetchReq "u1")] ∧
    (addItemV1 (some "u1") locNone none HttpResp.raise insMoodFail beMoodOk
        moodState0).2 =
      [DbCall.insert (moodRowOf (some "u1") locNone none HttpResp.raise
         moodState0),
       DbCall.select (moodFetchReq "u1")] :=
  ⟨(c3_insert_then_refresh (some "u1") insFoodFail beFoodOk foodState0
      locNone none HttpResp.raise insMoodFail beMoodOk moodState0).1
      (by decide),
   (c3_insert_then_refresh (some "u1") insFoodFail beFoodOk foodState0
      locNone none HttpResp.raise insMoodFail beMoodOk moodState0).2
      (by decide)⟩

/-- C9 counterexample: the input string `0` is numeric — `parseInt` yields 0
and the claimed clamping of 0 gives 1 — yet the row the mood add phase
builds and inserts carries mood 3, because `parseInt(mood, 10) || 3` also
replaces the falsy parsed value 0 by the default 3. -/
theorem c9_mood_zero_cex :
    jsParseInt "0" = some 0 ∧
    min 5 (max 1 (0 : Int)) = 1 ∧
    (addItemV1Pre (some "u1") locNone none HttpResp.raise insMoodOk
        { moodState0 with mood := "0" }).2.1 =
      [DbCall.insert
        { text := "feeling fine", mood := 3, lat := none, lng := none,
          weather := none, temperature := none, user_id := "u1" }] ∧
    (3 : Int) ≠ 1 := by decide

/-- C9 amended: every mood value inserted by the mood screen and every
rating value inserted by the food screen is an integer in [1, 5]; the raw
string is parsed with `parseInt`, a non-numeric input or an input parsing
to the falsy value 0 defaults to 3, and the result is clamped to at least 1
and at most 5, for every input string. -/
theorem c9_mood_clamped_amended (s : String) (userId : Option String)
    (loc : LocEnv) (wk : Option String) (wh : HttpResp)
    (insM : MoodRowV1 → Option String)
    (beM : FetchRequest → DbResult (List MoodEntry)) (sM : MoodState)
    (insF : FoodRow → Option String)
    (beF : FetchRequest → DbResult (List FoodEntry)) (sF : FoodState) :
    1 ≤ moodNumber s ∧ moodNumber s ≤ 5 ∧
    moodNumber s =
      min 5 (max 1 (match jsParseInt s with
        | none => 3
        | some v => if v = 0 then 3 else v)) ∧
    (∀ row, DbCall.insert row ∈ (addItemV1 userId loc wk wh insM beM sM).2 →
      row.mood = moodNumber sM.mood) ∧
    (∀ row, DbCall.insert row ∈ (addFoodEntry userId insF beF sF).2 →
      row.rating = moodNumber sF.rating) := by
  refine ⟨?_, ?_, rfl, ?_, ?_⟩
  · simp [moodNumber, min_def, max_def]
    split_ifs <;> omega
  · unfold moodNumber
    exact min_le_left _ _
  · intro row hrow
    by_cases hr : (addItemV1Pre userId loc wk wh insM sM).2.2 = true
    · rw [addItemV1_calls_of_reach userId loc wk wh insM beM sM hr] at hrow
      simp at hrow
      subst hrow
      rfl
    · have hr2 : (addItemV1Pre userId loc wk wh insM sM).2.2 = false := by
        cases hb : (addItemV1Pre userId loc wk wh insM sM).2.2 <;> simp_all
      rw [addItemV1_calls_of_noreach userId loc wk wh insM beM sM hr2]
        at hrow
      simp at hrow
  · intro row hrow
    by_cases hr : (addFoodEntryPre userId insF sF).2.2 = true
    · rw [addFoodEntry_calls_of_reach userId insF beF sF hr] at hrow
      simp at hrow
      subst hrow
      rfl
    · have hr2 : (addFoodEntryPre userId insF sF).2.2 = false := by
        cases hb : (addFoodEntryPre userId insF sF).2.2 <;> simp_all
      rw [addFoodEntry_calls_of_noreach userId insF beF sF hr2] at hrow
      simp at hrow

/-- C9 witness: a concretely inserted mood row carries the clamped value of
its form state. -/
theorem c9_mood_clamped_amended_w :
    (moodRowOf (some "u1") locNone none HttpResp.raise moodState0).mood =
      moodNumber "4" :=
  (c9_mood_clamped_amended "4" (some "u1") locNone none HttpResp.raise
      insMoodOk beMoodOk moodState0 insFoodOk beFoodOk foodState0).2.2.2.1
    (moodRowOf (some "u1") locNone none HttpResp.raise moodState0)
    (by decide)

/-- C8 counterexample: a successful food insert with a selected nutrition
item whose fat value is 0 stores fiber (and fat) as null, not as the fat
value 0 — `selectedNutrition?.fat || null` collapses the falsy 0. -/
theorem c8_fiber_zero_cex :
    (addFoodEntry (some "u1") insFoodOk beFoodOk
        { foodState0 with selectedNutrition := some nutritionZeroFat }).2 =
      [DbCall.insert
        { food_name := "apple", calories := 95, protein := some 11,
          carbs := some 1, fat := none, fiber := none,
          meal_type := MealType.breakfast, rating := 4, notes := none,
          user_id := "u1" },
       DbCall.select (foodFetchReq "u1")] ∧
    nutritionZeroFat.fat = 0 ∧
    (none : Option Int) ≠ some nutritionZeroFat.fat := by decide

/-- C8 amended: every row inserted by the food screen stores in the fiber
field the selected item's fat value filtered through the falsy-to-null
collapse — the fat value itself when it is non-zero, null when it is zero —
and stores protein, carbs, fat and fiber all as null when no nutrition item
is selected. -/
theorem c8_fiber_amended (userId : Option String)
    (insF : FoodRow → Option String)
    (beF : FetchRequest → DbResult (List FoodEntry)) (sF : FoodState) :
    ∀ row, DbCall.insert row ∈ (addFoodEntry userId insF beF sF).2 →
      row.fiber = selNutr sF.selectedNutrition NutritionInfo.fat ∧
      (∀ ni, sF.selectedNutrition = some ni → ni.fat ≠ 0 →
        row.fiber = some ni.fat) ∧
      (sF.selectedNutrition = none →
        row.protein = none ∧ row.carbs = none ∧ row.fat = none ∧
        row.fiber = none) := by
  intro row hrow
  by_cases hr : (addFoodEntryPre userId insF sF).2.2 = true
  · rw [addFoodEntry_calls_of_reach userId insF beF sF hr] at hrow
    simp at hrow
    subst hrow
    refine ⟨rfl, fun ni hni hfat => ?_, fun hnone => ?_⟩
    · simp [foodRowOf, selNutr, jsNumOrNull, hni, hfat]
    · simp [foodRowOf, selNutr, hnone]
  · have hr2 : (addFoodEntryPre userId insF sF).2.2 = false := by
      cases hb : (addFoodEntryPre userId insF sF).2.2 <;> simp_all
    rw [addFoodEntry_calls_of_noreach userId insF beF sF hr2] at hrow
    simp at hrow

/-- C8 witness: with a selected item of non-zero fat the inserted row's
fiber field equals that fat value; with no selection all four nutrient
fields are null. -/
theorem c8_fiber_amended_w :
    (foodRowOf (some "u1")
        { foodState0 with selectedNutrition := some nutritionButter }).fiber =
      some nutritionButter.fat ∧
    ((foodRowOf (some "u1") foodState0).protein = none ∧
     (foodRowOf (some "u1") foodState0).carbs = none ∧
     (foodRowOf (some "u1") foodState0).fat = none ∧
     (foodRowOf (some "u1") foodState0).fiber = none) :=
  ⟨((c8_fiber_amended (some "u1") insFoodOk beFoodOk
      { foodState0 with selectedNutrition := some nutritionButter })
      (foodRowOf (some "u1")
        { foodState0 with selectedNutrition := some nutritionButter })
      (by decide)).2.1 nutritionButter rfl (by decide),
   ((c8_fiber_amended (some "u1") insFoodOk beFoodOk foodState0)
      (foodRowOf (some "u1") foodState0) (by decide)).2.2 rfl⟩

/-- C5 counterexample: with a present API key and an ok response whose foods
array is present but empty, `searchFoodAPI` returns the empty list although
none of the four claimed conditions (missing key, non-ok response, no foods
array, exception) holds. -/
theorem c5_empty_iff_cex :
    ¬ (((searchFoodAPI (some "fk")
          (FoodHttp.ok { foods := some [] })).1 = []) ↔
        (jsStrTruthy (some "fk") = false ∨
         FoodHttp.ok { foods := some [] } = FoodHttp.raise ∨
         (∃ st, FoodHttp.ok { foods := some [] } = FoodHttp.notOk st) ∨
         (USDAResp.mk (some [])).foods = none)) := by
  intro hiff
  have hempty : (searchFoodAPI (some "fk")
      (FoodHttp.ok { foods := some [] })).1 = [] := by decide
  rcases hiff.mp hempty with hc | hc | ⟨st, hc⟩ | hc
  · exact absurd hc (by decide)
  · simp at hc
  · simp at hc
  · simp at hc

/-- C5 amended: `searchFoodAPI` issues at most one HTTP request per call,
maps each returned food to its description (or the Unknown Food fallback)
with the rounded nutrient values 1008/1003/1005/1004 defaulting to 0 when
absent, and returns the empty list exactly when the API key is missing, the
response is non-ok, an exception is thrown, or the response has no foods
array or an empty one. -/
theorem c5_searchFoodAPI_amended (k : Option String) (h : FoodHttp) :
    (searchFoodAPI k h).2 ≤ 1 ∧
    ((searchFoodAPI k h).1 = [] ↔
      (jsStrTruthy k = false ∨ h = FoodHttp.raise ∨
       (∃ st, h = FoodHttp.notOk st) ∨
       (∃ r, h = FoodHttp.ok r ∧
         (r.foods = none ∨ r.foods = some [])))) ∧
    (∀ r foods, jsStrTruthy k = true → h = FoodHttp.ok r →
      r.foods = some foods →
      (searchFoodAPI k h).1 = foods.map mapUSDAFood) := by
  unfold searchFoodAPI
  by_cases hk : jsStrTruthy k
  · cases h with
    | ok r =>
        refine ⟨by simp [hk], ?_, ?_⟩
        · simp [hk]
          rcases hf : r.foods with _ | fs <;> simp [hf]
        · intro r1 foods hk1 he hf
          injection he with he
          subst he
          simp [hk, hf]
    | notOk st =>
        refine ⟨by simp [hk], ?_, ?_⟩
        · simp [hk]
        · intro r1 foods hk1 he hf
          simp at he
    | raise =>
        refine ⟨by simp [hk], ?_, ?_⟩
        · simp [hk]
        · intro r1 foods hk1 he hf
          simp at he
  · refine ⟨by simp [hk], by simp [hk], ?_⟩
    intro r1 foods hk1 he hf
    simp_all

/-- C5 witness: a concrete one-food response maps to its rounded nutrient
record, and a missing-key call returns the empty list with no request. -/
theorem c5_searchFoodAPI_amended_w :
    (searchFoodAPI (some "fk") (FoodHttp.ok usdaAppleResp)).1 =
      [{ name := "Apple, raw", calories := 48, protein := 0, carbs := 0,
         fat := 0 }] ∧
    (searchFoodAPI none FoodHttp.raise).1 = [] := by
  constructor
  · have h := (c5_searchFoodAPI_amended (some "fk")
      (FoodHttp.ok usdaAppleResp)).2.2 usdaAppleResp
      ((usdaAppleResp.foods).getD []) (by decide) rfl rfl
    rw [h]
    show List.map mapUSDAFood _ = _
    simp [usdaAppleResp, mapUSDAFood, nutrientValue, jsRound]
    norm_num
  · exact (c5_searchFoodAPI_amended none FoodHttp.raise).2.1.mpr
      (Or.inl (by decide))

/-- C6 counterexample: a successful run of the legacy mood screen's
`addItem` completes and issues its single insert, but the inserted row's
object literal has no `user_id` key at all (unlike the food screen's and the
current mood screen's inserts), so the stored row does not carry the
authenticated user's id. -/
theorem c6_legacy_no_user_cex :
    addItemV2 locNone HttpRespV2.raise insMoodOkV2 beMoodOk moodState0 =
      Except.ok
        ({ moodState0 with text := "" },
         [DbCall.insert
           { text := "feeling fine", mood := 4, lat := none, lng := none,
             weather := none },
          DbCall.select moodFetchReqV2]) ∧
    "user_id" ∉ moodRowV2Keys ∧
    "user_id" ∈ moodRowV1Keys ∧ "user_id" ∈ foodRowKeys :=
  ⟨rfl, by decide, by decide, by decide⟩

/-- C6 amended: every add operation that reaches its insert stores exactly
one row whose fields equal the validated form values (trimmed name or text,
parsed and validated or clamped numbers, selected meal type, trimmed notes
or null); the food screen and the current mood screen additionally store the
authenticated user's id, while the legacy mood screen's insert has no
user_id field. -/
theorem c6_row_fields_amended (userId : Option String) (uid : String)
    (insF : FoodRow → Option String)
    (beF : FetchRequest → DbResult (List FoodEntry)) (sF : FoodState)
    (loc : LocEnv) (wk : Option String) (wh : HttpResp)
    (insM : MoodRowV1 → Option String)
    (beM : FetchRequest → DbResult (List MoodEntry)) (sM : MoodState)
    (loc2 : LocEnv) (wh2 : HttpRespV2) (insV : MoodRowV2 → Option String)
    (beV : FetchRequest → DbResult (List MoodEntry)) (sV : MoodState) :
    (userId = some uid → (addFoodEntryPre userId insF sF).2.2 = true →
      (addFoodEntry userId insF beF sF).2.countP
        (fun c => DbCall.isIns c) = 1 ∧
      DbCall.insert
        { food_name := jsTrim sF.foodName
          calories := parseIntOr sF.calories 0
          protein := selNutr sF.selectedNutrition NutritionInfo.protein
          carbs := selNutr sF.selectedNutrition NutritionInfo.carbs
          fat := selNutr sF.selectedNutrition NutritionInfo.fat
          fiber := selNutr sF.selectedNutrition NutritionInfo.fat
          meal_type := sF.mealType
          rating := moodNumber sF.rating
          notes := jsStrOrNull (jsTrim sF.notes)
          user_id := uid } ∈ (addFoodEntry userId insF beF sF).2) ∧
    (userId = some uid →
      (addItemV1Pre userId loc wk wh insM sM).2.2 = true →
      (addItemV1 userId loc wk wh insM beM sM).2.countP
        (fun c => DbCall.isIns c) = 1 ∧
      DbCall.insert
        { text := jsTrim sM.text
          mood := moodNumber sM.mood
          lat := (moodLocation sM.useLocation loc wk wh).1
          lng := (moodLocation sM.useLocation loc wk wh).2.1
          weather := (moodLocation sM.useLocation loc wk wh).2.2.1
          temperature := (moodLocation sM.useLocation loc wk wh).2.2.2
          user_id := uid } ∈ (addItemV1 userId loc wk wh insM beM sM).2) ∧
    (∀ s2 calls row, addItemV2 loc2 wh2 insV beV sV = Except.ok (s2, calls) →
      DbCall.insert row ∈ calls →
      calls.countP (fun c => DbCall.isIns c) = 1 ∧
      row.text = jsTrim sV.text ∧ row.mood = moodNumber sV.mood ∧
      (∃ l, moodLocationV2 sV.useLocation loc2 wh2 = Except.ok l ∧
        row.lat = l.1 ∧ row.lng = l.2.1 ∧ row.weather = l.2.2)) ∧
    "user_id" ∉ moodRowV2Keys := by
  refine ⟨fun hu hr => ?_, fun hu hr => ?_, fun s2 calls row hrun hmem => ?_,
          by decide⟩
  · subst hu
    rw [addFoodEntry_calls_of_reach (some uid) insF beF sF hr]
    exact ⟨rfl, List.mem_cons_self _ _⟩
  · subst hu
    rw [addItemV1_calls_of_reach (some uid) loc wk wh insM beM sM hr]
    exact ⟨rfl, List.mem_cons_self _ _⟩
  · rcases addItemV2_calls loc2 wh2 insV beV sV s2 calls hrun with
      hc | ⟨l, hl, hn, hc⟩
    · subst hc
      simp at hmem
    · subst hc
      simp at hmem
      subst hmem
      exact ⟨rfl, rfl, rfl, l, hl, rfl, rfl, rfl⟩

/-- C6 witness: a concrete successful food add stores exactly one row with
the validated field values and the user's id, and a concrete successful
legacy add stores exactly one row with the validated text and mood. -/
theorem c6_row_fields_amended_w :
    ((addFoodEntry (some "u1") insFoodOk beFoodOk foodState0).2.countP
      (fun c => DbCall.isIns c) = 1 ∧
    DbCall.insert
      { food_name := jsTrim foodState0.foodName
        calories := parseIntOr foodState0.calories 0
        protein := selNutr foodState0.selectedNutrition NutritionInfo.protein
        carbs := selNutr foodState0.selectedNutrition NutritionInfo.carbs
        fat := selNutr foodState0.selectedNutrition NutritionInfo.fat
        fiber := selNutr foodState0.selectedNutrition NutritionInfo.fat
        meal_type := foodState0.mealType
        rating := moodNumber foodState0.rating
        notes := jsStrOrNull (jsTrim foodState0.notes)
        user_id := "u1" } ∈
      (addFoodEntry (some "u1") insFoodOk beFoodOk foodState0).2) ∧
    (([DbCall.insert
        { text := "feeling fine", mood := 4, lat := none, lng := none,
          weather := none },
       DbCall.select moodFetchReqV2] :
        List (DbCall MoodRowV2)).countP (fun c => DbCall.isIns c) = 1 ∧
     ({ text := "feeling fine", mood := 4, lat := none, lng := none,
        weather := none } : MoodRowV2).text = jsTrim moodState0.text ∧
     ({ text := "feeling fine", mood := 4, lat := none, lng := none,
        weather := none } : MoodRowV2).mood = moodNumber moodState0.mood ∧
     (∃ l, moodLocationV2 moodState0.useLocation locNone HttpRespV2.raise =
        Except.ok l ∧
       ({ text := "feeling fine", mood := 4, lat := none, lng := none,
          weather := none } : MoodRowV2).lat = l.1 ∧
       ({ text := "feeling fine", mood := 4, lat := none, lng := none,
          weather := none } : MoodRowV2).lng = l.2.1 ∧
       ({ text := "feeling fine", mood := 4, lat := none, lng := none,
          weather := none } : MoodRowV2).weather = l.2.2)) :=
  ⟨(c6_row_fields_amended (some "u1") "u1" insFoodOk beFoodOk foodState0
      locNone none HttpResp.raise insMoodOk beMoodOk moodState0
      locNone HttpRespV2.raise insMoodOkV2 beMoodOk moodState0).1 rfl
      (by decide),
   (c6_row_fields_amended (some "u1") "u1" insFoodOk beFoodOk foodState0
      locNone none HttpResp.raise insMoodOk beMoodOk moodState0
      locNone HttpRespV2.raise insMoodOkV2 beMoodOk moodState0).2.2.1
      { moodState0 with text := "" }
      [DbCall.insert
        { text := "feeling fine", mood := 4, lat := none, lng := none,
          weather := none },
       DbCall.select moodFetchReqV2]
      { text := "feeling fine", mood := 4, lat := none, lng := none,
        weather := none } rfl (by decide)⟩
